import Mathlib

/-!
Verification of the PolicyPal backend (`src/python-server/main.py`) against its
natural-language specification.  The Python service is shallowly embedded:
Pydantic models become structures, the validation / storage / chat handlers
become pure functions, Python string truthiness and `or`-chains are modelled
explicitly, raised `HTTPException`s and `ValueError`s become `Except` errors,
and the in-process `sessions` dict becomes a finite map passed explicitly.
-/

/-! ## Python-value helpers -/

/-- Python `str.strip()`: drop leading and trailing whitespace.  (Defined on
the character list so that proofs can evaluate it by kernel reduction.) -/
def pyStrip (s : String) : String :=
  String.mk (((s.data.dropWhile Char.isWhitespace).reverse.dropWhile Char.isWhitespace).reverse)

/-- Python `str.lower()` (for the ASCII data this service handles). -/
def pyToLower (s : String) : String := String.mk (s.data.map Char.toLower)

/-- Numeric value of a digit string. -/
def digitsVal (l : List Char) : Nat := l.foldl (fun n c => n * 10 + (c.toNat - 48)) 0

/-- Parse a non-empty all-digit string as a natural number. -/
def pyToNatOpt (s : String) : Option Nat :=
  if !(s.data.isEmpty) && s.data.all Char.isDigit then some (digitsVal s.data) else none

/-- Parse an optionally signed integer literal, Python `int`-style. -/
def pyToIntList : List Char → Option Int
  | [] => none
  | '-' :: rest =>
    if !(rest.isEmpty) && rest.all Char.isDigit then some (-(digitsVal rest : Int)) else none
  | '+' :: rest =>
    if !(rest.isEmpty) && rest.all Char.isDigit then some ((digitsVal rest : Int)) else none
  | l => if l.all Char.isDigit then some ((digitsVal l : Int)) else none

/-- Parse an optionally signed integer literal from a string. -/
def pyToIntOpt (s : String) : Option Int := pyToIntList s.data

/-- Truthiness of a Python `Optional[str]`: `None` and `""` are falsy. -/
def pyTruthyOpt : Option String → Bool
  | none => false
  | some s => !(s == "")

/-- Python `a or b` on `Optional[str]` values: the first truthy operand,
else the second operand. -/
def pyOr (a b : Option String) : Option String :=
  if pyTruthyOpt a then a else b

/-- Python `not x or not x.strip()` on an `Optional[str]`: missing, empty, or
whitespace-only. -/
def blankOpt : Option String → Bool
  | none => true
  | some s => pyStrip s == ""

/-- Python `not x` on an `Optional[str]`: missing or empty. -/
def falsyOpt (o : Option String) : Bool := !(pyTruthyOpt o)

/-- Rendering of an `Optional[str]` inside a Python f-string: `None` prints
as the text `None`. -/
def optFStr : Option String → String
  | none => "None"
  | some s => s

/-- Python `str.isdigit` (for the ASCII inputs this service handles):
non-empty and all characters are decimal digits. -/
def pyIsDigit (s : String) : Bool := !(s == "") && s.toList.all Char.isDigit

/-- Python `int(s)` on a string that passed `isdigit`: its numeric value. -/
def digitsToNat (s : String) : Nat := (pyToNatOpt s).getD 0

/-- A Python exception raised by the service: FastAPI `HTTPException`
(status code plus detail) or `ValueError` (from `int(...)`). -/
inductive PyExc where
  | httpException (status : Nat) (detail : String)
  | valueError (msg : String)
deriving DecidableEq, Repr

/-- Python `str(e)`: Starlette renders `HTTPException` as
`"<status>: <detail>"`; a `ValueError` prints its message. -/
def pyExcStr : PyExc → String
  | .httpException status detail => toString status ++ ": " ++ detail
  | .valueError msg => msg

/-- The status code a `PyExc` surfaces as. -/
def pyExcStatus : PyExc → Nat
  | .httpException status _ => status
  | .valueError _ => 500

/-- Python `int(s)` on an arbitrary string: parses an (optionally signed)
integer after stripping whitespace, else raises `ValueError`. -/
def pyInt (s : String) : Except PyExc Int :=
  match pyToIntOpt (pyStrip s) with
  | some n => .ok n
  | none => .error (.valueError ("invalid literal for int() with base 10: '" ++ s ++ "'"))

/-! ## The Pydantic `CustomerData` model (main.py lines 44-77) -/

/-- The `CustomerData` Pydantic model: five required string fields and the
optional type-specific fields, exactly as declared (camelCase names, no
snake-case aliases are configured on the model). -/
structure CustomerData where
  name : String
  email : String
  phone : String
  zipCode : String
  insuranceType : String
  vehicleNumber : Option String := none
  vehicleModel : Option String := none
  vehicleYear : Option String := none
  age : Option String := none
  gender : Option String := none
  medicalHistory : Option String := none
  lifeAge : Option String := none
  lifeGender : Option String := none
  coverageAmount : Option String := none
  relationship : Option String := none
  savingsAge : Option String := none
  savingsGender : Option String := none
  monthlyInvestment : Option String := none
  investmentGoal : Option String := none
  homeAge : Option String := none
  homeGender : Option String := none
  currentProvider : Option String := none
deriving DecidableEq, Repr

/-- Pydantic parsing of a raw JSON payload into `CustomerData`: each declared
field is looked up under its declared (camelCase) name only; a missing
required field is a validation error naming that field; unknown keys are
ignored.  (The `EmailStr` grammar check is Pydantic-library internal and is
not modelled; it is irrelevant to which keys are consulted.) -/
def requireField (payload : List (String × String)) (k : String) : Except String String :=
  match payload.lookup k with
  | some v => .ok v
  | none => .error ("Field required: " ++ k)

/-- Parse a raw payload (a JSON object, modelled as an association list) into
the `CustomerData` model, per the Pydantic field declarations. -/
def parseCustomerData (payload : List (String × String)) : Except String CustomerData := do
  let name ← requireField payload "name"
  let email ← requireField payload "email"
  let phone ← requireField payload "phone"
  let zipCode ← requireField payload "zipCode"
  let insuranceType ← requireField payload "insuranceType"
  .ok { name, email, phone, zipCode, insuranceType,
        vehicleNumber := payload.lookup "vehicleNumber",
        vehicleModel := payload.lookup "vehicleModel",
        vehicleYear := payload.lookup "vehicleYear",
        age := payload.lookup "age",
        gender := payload.lookup "gender",
        medicalHistory := payload.lookup "medicalHistory",
        lifeAge := payload.lookup "lifeAge",
        lifeGender := payload.lookup "lifeGender",
        coverageAmount := payload.lookup "coverageAmount",
        relationship := payload.lookup "relationship",
        savingsAge := payload.lookup "savingsAge",
        savingsGender := payload.lookup "savingsGender",
        monthlyInvestment := payload.lookup "monthlyInvestment",
        investmentGoal := payload.lookup "investmentGoal",
        homeAge := payload.lookup "homeAge",
        homeGender := payload.lookup "homeGender",
        currentProvider := payload.lookup "currentProvider" }

/-! ## The insurance-type table (identical dict at main.py lines 133-141,
196-204, 323-331, 722-730) -/

/-- The `insurance_type_mapping` dict: exact-key lookup. -/
def insurance_type_mapping (s : String) : Option String :=
  if s == "car" then some "auto"
  else if s == "auto" then some "auto"
  else if s == "term" then some "term_life"
  else if s == "term_life" then some "term_life"
  else if s == "health" then some "health"
  else if s == "savings" then some "savings"
  else if s == "home" then some "home"
  else none

/-- `insurance_type_mapping.get(t, t)`: table lookup with the raw token
passed through unchanged when absent. -/
def resolveType (s : String) : String := (insurance_type_mapping s).getD s

/-! ## `validate_customer_data` (main.py lines 305-363) -/

/-- `DatabaseService.validate_customer_data`: the checks in source order;
the first failing check raises `HTTPException(400, detail)`. -/
def validate_customer_data (cd : CustomerData) : Except PyExc Unit :=
  if pyStrip cd.name == "" then .error (.httpException 400 "Name is required")
  else if pyStrip cd.email == "" then .error (.httpException 400 "Email is required")
  else if pyStrip cd.phone == "" then .error (.httpException 400 "Phone is required")
  else if pyStrip cd.zipCode == "" then .error (.httpException 400 "ZIP code is required")
  else if cd.insuranceType == "" then .error (.httpException 400 "Insurance type is required")
  else if cd.phone.length < 10 then .error (.httpException 400 "Phone number must be at least 10 digits")
  else
    let db_insurance_type := resolveType cd.insuranceType
    if db_insurance_type == "auto" then
      if blankOpt cd.vehicleNumber then .error (.httpException 400 "Vehicle number is required for auto insurance")
      else if blankOpt cd.vehicleModel then .error (.httpException 400 "Vehicle model is required for auto insurance")
      else if falsyOpt cd.vehicleYear then .error (.httpException 400 "Vehicle year is required for auto insurance")
      else .ok ()
    else if db_insurance_type == "health" || db_insurance_type == "term_life"
        || db_insurance_type == "savings" || db_insurance_type == "home" then
      let age_field := pyOr (pyOr cd.lifeAge cd.savingsAge) cd.age
      let gender_field := pyOr (pyOr cd.lifeGender cd.savingsGender) cd.gender
      let ageBad : Bool :=
        match age_field with
        | none => true
        | some s => s == "" || !(pyIsDigit s) || digitsToNat s < 18 || digitsToNat s > 80
      if ageBad then .error (.httpException 400 "Valid age between 18 and 80 is required")
      else if falsyOpt gender_field then .error (.httpException 400 "Gender is required")
      else if db_insurance_type == "term_life" then
        if blankOpt cd.coverageAmount then .error (.httpException 400 "Coverage amount is required for term life insurance")
        else if falsyOpt cd.relationship then .error (.httpException 400 "Relationship is required for term life insurance")
        else .ok ()
      else if db_insurance_type == "savings" then
        if blankOpt cd.monthlyInvestment then .error (.httpException 400 "Monthly investment is required for savings plans")
        else if blankOpt cd.investmentGoal then .error (.httpException 400 "Investment goal is required for savings plans")
        else .ok ()
      else .ok ()
    else .ok ()

/-- The basic (type-independent) validation preconditions, bundled: the five
required strings are present and the phone has at least 10 characters. -/
def basicsOk (cd : CustomerData) : Bool :=
  !(pyStrip cd.name == "") && !(pyStrip cd.email == "") && !(pyStrip cd.phone == "")
    && !(pyStrip cd.zipCode == "") && !(cd.insuranceType == "") && !(decide (cd.phone.length < 10))

/-! ## `store_customer` (main.py lines 185-303) -/

/-- A value placed into the `formatted_data` dict: a string, an integer, or
Python `None`. -/
inductive DBVal where
  | str (s : String)
  | int (n : Int)
  | null
deriving DecidableEq, Repr

/-- `x.strip() if x else None` on an `Optional[str]`. -/
def store_str_value : Option String → DBVal
  | none => .null
  | some s => if s == "" then .null else .str (pyStrip s)

/-- The gender dict used inside `store_customer`:
`{'Male': 'male', 'Female': 'female', 'male': 'male', 'female': 'female'}`
with `.get(g, g.lower())`. -/
def store_gender_mapping (g : String) : String :=
  if g == "Male" then "male"
  else if g == "Female" then "female"
  else if g == "male" then "male"
  else if g == "female" then "female"
  else pyToLower g

/-- The `gender_value` computation of `store_customer`: `None` unless
`primary or fallback` is truthy, else the mapped value. -/
def store_gender_value (primary fallback : Option String) : DBVal :=
  match pyOr primary fallback with
  | none => .null
  | some g => if g == "" then .null else .str (store_gender_mapping g)

/-- `int(primary or fallback) if (primary or fallback) else None`: the
age / vehicle-year pattern of `store_customer`; `int(...)` can raise. -/
def store_int_value (primary fallback : Option String) : Except PyExc DBVal :=
  match pyOr primary fallback with
  | none => .ok .null
  | some s => if s == "" then .ok .null else (pyInt s).map .int

/-- The type-specific entries `store_customer` adds to `formatted_data`
(main.py lines 219-277). -/
def store_type_specific (cd : CustomerData) (db_insurance_type : String) :
    Except PyExc (List (String × DBVal)) := do
  if db_insurance_type == "auto" then
    let vy ← store_int_value cd.vehicleYear none
    pure [("vehicle_number", store_str_value cd.vehicleNumber),
          ("vehicle_model", store_str_value cd.vehicleModel),
          ("vehicle_year", vy)]
  else if db_insurance_type == "health" then
    let a ← store_int_value cd.age none
    pure [("age", a),
          ("gender", store_gender_value cd.gender none),
          ("medical_history", store_str_value cd.medicalHistory)]
  else if db_insurance_type == "term_life" then
    let a ← store_int_value cd.lifeAge cd.age
    pure [("age", a),
          ("gender", store_gender_value cd.lifeGender cd.gender),
          ("coverage_amount", store_str_value cd.coverageAmount),
          ("relationship", match cd.relationship with | none => .null | some r => .str r)]
  else if db_insurance_type == "savings" then
    let a ← store_int_value cd.savingsAge cd.age
    pure [("age", a),
          ("gender", store_gender_value cd.savingsGender cd.gender),
          ("monthly_investment", store_str_value cd.monthlyInvestment),
          ("investment_goal", store_str_value cd.investmentGoal)]
  else if db_insurance_type == "home" then
    let a ← store_int_value cd.homeAge cd.age
    pure [("age", a),
          ("gender", store_gender_value cd.homeGender cd.gender)]
  else
    pure []

/-- The `formatted_data` dict of `store_customer` after dropping `None`
values (the `columns = [k for k, v in ... if v is not None]` step). -/
def store_formatted_data (cd : CustomerData) : Except PyExc (List (String × DBVal)) := do
  let db_insurance_type := resolveType cd.insuranceType
  let base : List (String × DBVal) :=
    [("name", .str (pyStrip cd.name)),
     ("email", .str (pyStrip (pyToLower cd.email))),
     ("phone", .str (pyStrip cd.phone)),
     ("zip_code", .str (pyStrip cd.zipCode)),
     ("insurance_type", .str db_insurance_type),
     ("current_provider", store_str_value cd.currentProvider),
     ("lead_source", .str "website")]
  let extra ← store_type_specific cd db_insurance_type
  pure ((base ++ extra).filter (fun kv => !(kv.2 == DBVal.null)))

/-- The body of `DatabaseService.store_customer`'s `try` block: validate,
build `formatted_data`, insert (the database insert is abstracted as
granting identifier `dbId`). -/
def store_customer_body (cd : CustomerData) (dbId : Nat) : Except PyExc Nat := do
  let _ ← validate_customer_data cd
  let _ ← store_formatted_data cd
  pure dbId

/-- `DatabaseService.store_customer`: its blanket
`except Exception as e: raise HTTPException(status_code=500, detail=str(e))`
re-wraps every exception of the body — including the validator's
`HTTPException(400, ...)` — into a 500. -/
def store_customer (cd : CustomerData) (dbId : Nat) : Except PyExc Nat :=
  match store_customer_body cd dbId with
  | .ok n => .ok n
  | .error e => .error (.httpException 500 (pyExcStr e))

/-- The `POST /api/database/customer` route handler: 400 when `customerData`
is absent, otherwise delegates to `DatabaseService.store_customer`; its
`except HTTPException: raise` re-raises that exception unchanged. -/
def store_customer_endpoint (customerData : Option CustomerData) (dbId : Nat) :
    Except PyExc Nat :=
  match customerData with
  | none => .error (.httpException 400 "Customer data is required")
  | some cd => store_customer cd dbId

/-! ## `generate_simple_response` (main.py lines 717-778) -/

/-- Python `needle in hay` on lists of characters. -/
def listContainsSub (hay needle : List Char) : Bool :=
  match hay with
  | [] => needle.isEmpty
  | _ :: t => needle.isPrefixOf hay || listContainsSub t needle

/-- Python `needle in hay` on strings: substring containment. -/
def pyInStr (needle hay : String) : Bool := listContainsSub hay.toList needle.toList

/-- `any(word in hay for word in words)`. -/
def containsAny (hay : String) (words : List String) : Bool :=
  words.any (fun w => pyInStr w hay)

/-- The auto-insurance quote template (main.py line 738). -/
def autoQuoteResponse (name vm : String) : String :=
  "Great question about pricing, " ++ name ++ "! Based on your " ++ vm
  ++ ", I can get you competitive quotes. Most customers in your area save around $400-800 per year. Would you like me to show you some specific options?"

/-- The auto-insurance coverage template (main.py line 740). -/
def autoCoverageResponse : String :=
  "For auto insurance, I recommend comprehensive coverage that includes liability, collision, comprehensive, and uninsured motorist protection. This gives you complete peace of mind on the road. What's most important to you - lowest price or maximum protection?"

/-- The health-insurance quote template (main.py line 745). -/
def healthQuoteResponse (name : String) : String :=
  "Health insurance costs vary based on your needs, " ++ name
  ++ ". For someone your age, plans typically range from $200-600 per month. The good news is there are often subsidies available! Would you like me to check what options are available in your area?"

/-- The health-insurance coverage template (main.py line 747). -/
def healthCoverageResponse : String :=
  "Health insurance should cover doctor visits, hospital stays, prescription drugs, and preventive care. I can help you find a plan that includes your preferred doctors and covers any medications you need. Do you have any specific healthcare needs?"

/-- The term-life quote template (main.py line 752). -/
def termLifeQuoteResponse (name : String) : String :=
  "Term life insurance is very affordable, " ++ name
  ++ "! For someone your age, a $500,000 policy might cost as little as $20-40 per month. The exact rate depends on your health and lifestyle. Would you like me to get you some personalized quotes?"

/-- The term-life coverage template (main.py line 754). -/
def termLifeCoverageResponse : String :=
  "A good rule of thumb is 10-12 times your annual income. This ensures your family can maintain their lifestyle and pay off debts. Based on what you've told me, I'd recommend looking at coverage between $250,000 to $1,000,000. What feels right for your situation?"

/-- The savings returns template (main.py line 759). -/
def savingsReturnsResponse (name : String) : String :=
  "Great question about returns, " ++ name
  ++ "! Our savings plans typically offer 6-8% annual returns, which is much better than traditional savings accounts. Plus, you get tax benefits and life insurance protection. Would you like to see how your money could grow over time?"

/-- The savings flexibility template (main.py line 761). -/
def savingsFlexibleResponse : String :=
  "Absolutely! Our savings plans are very flexible. You can increase your contributions, take partial withdrawals after 5 years, and even pause payments if needed. Life happens, and your plan should adapt with you. What kind of flexibility is most important to you?"

/-- The home-insurance quote template (main.py line 766). -/
def homeQuoteResponse (name : String) : String :=
  "Home insurance rates depend on your property value and location, " ++ name
  ++ ". Most homeowners in your area pay between $800-2000 per year. I can help you find competitive rates that protect your most valuable asset. Would you like me to get you some quotes?"

/-- The home-insurance coverage template (main.py line 768). -/
def homeCoverageResponse : String :=
  "Home insurance should cover your dwelling, personal property, liability, and additional living expenses. This protects you from fire, theft, storms, and accidents on your property. What's most important to you - protecting the structure or your belongings?"

/-- The thanks template (main.py line 772). -/
def thanksResponse (name : String) : String :=
  "You're very welcome, " ++ name
  ++ "! I'm here to make insurance simple and help you get the best coverage for your needs. What other questions can I answer for you?"

/-- The help template (main.py line 775). -/
def helpResponse : String :=
  "I completely understand - insurance can be confusing! That's exactly why I'm here. Let me break this down in simple terms and help you find exactly what you need. What specific part would you like me to explain?"

/-- The default template (main.py line 778). -/
def defaultResponse (name insurance_type : String) : String :=
  "That's a great question, " ++ name
  ++ "! Let me make sure I understand your needs correctly so I can give you the best recommendations. Can you tell me more about what's most important to you in your "
  ++ insurance_type ++ " insurance coverage?"

/-- `generate_simple_response`: lower-case the message, resolve the insurance
type, and walk the keyword branches in source order; a type-specific branch
that matches returns, otherwise the general thanks / help / default
responses apply.  Note the auto quote branch reads
`getattr(context, 'vehicleModel', 'vehicle')`: the attribute always exists
on the model (default `None`), so the value used is the field itself,
rendered as `None` when absent. -/
def generate_simple_response (message : String) (context : CustomerData) : String :=
  let lower_message := pyToLower message
  let insurance_type := resolveType context.insuranceType
  let name := context.name
  let typeSpecific : Option String :=
    if insurance_type == "auto" then
      if containsAny lower_message ["quote", "price", "cost", "rate"] then
        some (autoQuoteResponse name (optFStr context.vehicleModel))
      else if containsAny lower_message ["coverage", "protection", "what"] then
        some autoCoverageResponse
      else none
    else if insurance_type == "health" then
      if containsAny lower_message ["quote", "price", "cost", "rate"] then
        some (healthQuoteResponse name)
      else if containsAny lower_message ["coverage", "benefits", "what"] then
        some healthCoverageResponse
      else none
    else if insurance_type == "term_life" then
      if containsAny lower_message ["quote", "price", "cost", "rate"] then
        some (termLifeQuoteResponse name)
      else if containsAny lower_message ["coverage", "amount", "how much"] then
        some termLifeCoverageResponse
      else none
    else if insurance_type == "savings" then
      if containsAny lower_message ["returns", "growth", "interest"] then
        some (savingsReturnsResponse name)
      else if containsAny lower_message ["flexible", "change", "increase"] then
        some savingsFlexibleResponse
      else none
    else if insurance_type == "home" then
      if containsAny lower_message ["quote", "price", "cost", "rate"] then
        some (homeQuoteResponse name)
      else if containsAny lower_message ["coverage", "protection", "what"] then
        some homeCoverageResponse
      else none
    else none
  match typeSpecific with
  | some r => r
  | none =>
    if containsAny lower_message ["thank", "thanks", "appreciate"] then thanksResponse name
    else if containsAny lower_message ["help", "confused", "understand"] then helpResponse
    else defaultResponse name insurance_type

/-! ## Chat sessions (main.py lines 524, 649-715) -/

/-- The request body of `POST /api/chat/initialize`. -/
structure ChatInitRequest where
  sessionId : String
  formData : CustomerData
deriving DecidableEq, Repr

/-- The request body of `POST /api/chat/message` (`formData` is a declared,
required field of the model). -/
structure ChatMessage where
  sessionId : String
  message : String
  formData : CustomerData
deriving DecidableEq, Repr

/-- One entry of the module-level `sessions` dict. -/
structure SessionData where
  formData : CustomerData
  history : List (String × String)
  context : CustomerData
deriving DecidableEq, Repr

/-- The module-level `sessions` dict, as a map from session id. -/
abbrev Sessions := String → Option SessionData

/-- `sessions[k] = v`. -/
def updateSessions (ss : Sessions) (k : String) (v : SessionData) : Sessions :=
  fun x => if x = k then some v else ss x

/-- The auto initial greeting (main.py line 666); like the responder's auto
quote branch it renders `formData.vehicleModel` via `getattr`, printing
`None` when the field is absent. -/
def initAutoMessage (name location vm : String) : String :=
  "Hi " ++ name ++ "! I see you're looking for auto insurance in " ++ location
  ++ ". I'd love to help you find the perfect coverage for your " ++ vm
  ++ ". Let me get you some personalized quotes!"

/-- The health initial greeting (main.py line 667). -/
def initHealthMessage (name location : String) : String :=
  "Hello " ++ name ++ "! Looking for health insurance in " ++ location
  ++ "? Great choice! I'm here to help you find comprehensive coverage that fits your needs and budget."

/-- The term-life initial greeting (main.py line 668). -/
def initTermLifeMessage (name location : String) : String :=
  "Hi " ++ name ++ "! Life insurance is such an important decision. I'm here to help you find the right coverage in "
  ++ location ++ " to protect your loved ones."

/-- The savings initial greeting (main.py line 669). -/
def initSavingsMessage (name location : String) : String :=
  "Hello " ++ name ++ "! I see you're interested in savings plans in " ++ location
  ++ ". I'd be happy to help you find the perfect investment option for your financial goals!"

/-- The home initial greeting (main.py line 670). -/
def initHomeMessage (name location : String) : String :=
  "Hi " ++ name ++ "! Looking for home insurance in " ++ location
  ++ "? I'm here to help you protect your most valuable asset with the right coverage."

/-- The fallback initial greeting (main.py line 673).  Note the dict is keyed
on the raw `formData.insuranceType`, not the resolved type. -/
def initDefaultMessage (name location : String) : String :=
  "Hi " ++ name ++ "! I'm here to help you find the right insurance coverage in " ++ location
  ++ ". What questions do you have?"

/-- The `initial_messages.get(insurance_type, default)` selection. -/
def initial_message (fd : CustomerData) : String :=
  let name := fd.name
  let location := fd.zipCode
  if fd.insuranceType == "auto" then initAutoMessage name location (optFStr fd.vehicleModel)
  else if fd.insuranceType == "health" then initHealthMessage name location
  else if fd.insuranceType == "term_life" then initTermLifeMessage name location
  else if fd.insuranceType == "savings" then initSavingsMessage name location
  else if fd.insuranceType == "home" then initHomeMessage name location
  else initDefaultMessage name location

/-- `POST /api/chat/initialize`: store (or overwrite) the session entry with
empty history and `context := formData`, and return the greeting. -/
def initialize_chat (ss : Sessions) (req : ChatInitRequest) : Sessions × String :=
  (updateSessions ss req.sessionId
    { formData := req.formData, history := [], context := req.formData },
   initial_message req.formData)

/-- `POST /api/chat/message`: 404 on an unknown session; otherwise append the
user message to the history, compute the reply from the *stored* context,
append the reply, and store the session back.  The request's `formData` is
never consulted. -/
def handle_chat_message (ss : Sessions) (req : ChatMessage) :
    Except PyExc (Sessions × String) :=
  match ss req.sessionId with
  | none => .error (.httpException 404 "Session not found")
  | some session =>
    let history1 := session.history ++ [("user", req.message)]
    let response := generate_simple_response req.message session.context
    let history2 := history1 ++ [("assistant", response)]
    .ok (updateSessions ss req.sessionId { session with history := history2 }, response)

/-! ## `get_insurance_products` (main.py lines 125-183) -/

/-- One row of the `insurance_products` table, restricted to the columns the
query touches, plus an id so rows are distinguishable. -/
structure Product where
  product_id : Nat
  product_type : String
  is_active : Bool
  min_age : Int
  max_age : Int
  target_gender : String
  premium_amount : Int
deriving DecidableEq, Repr

/-- The route-level gender dict (main.py lines 157-163) with
`.get(g, g.lower())`. -/
def query_gender_mapping (g : String) : String :=
  if g == "Male" then "male"
  else if g == "Female" then "female"
  else if g == "male" then "male"
  else if g == "female" then "female"
  else if g == "non_binary" then "non_binary"
  else pyToLower g

/-- The comparison the SQL `ORDER BY premium_amount ASC` sorts by. -/
def premiumLE (a b : Product) : Bool := decide (a.premium_amount ≤ b.premium_amount)

/-- `DatabaseService.get_insurance_products`: the dynamically-built SQL query
over an in-memory catalog (the table rows in insertion order).  `if age:`
and `if gender:` follow Python truthiness (`0` and `""` disable the
filter); `ORDER BY` is modelled as a stable sort on `premium_amount`. -/
def get_insurance_products (catalog : List Product) (product_type : String)
    (age : Option Int) (gender : Option String) : List Product :=
  let db_product_type := resolveType product_type
  let ageCond : Product → Bool := fun p =>
    match age with
    | none => true
    | some a => if a == 0 then true else decide (p.min_age ≤ a) && decide (a ≤ p.max_age)
  let genderCond : Product → Bool := fun p =>
    match gender with
    | none => true
    | some g =>
      if g == "" then true
      else p.target_gender == query_gender_mapping g || p.target_gender == "all"
  let rows := catalog.filter (fun p =>
    (p.product_type == db_product_type && p.is_active) && ageCond p && genderCond p)
  rows.mergeSort premiumLE

/-! ## Concrete example data -/

/-- The spec's example auto record: `{name: "Jane Doe", email: "jane@x.com",
phone: "9999999999", zipCode: "12345", insuranceType: "car",
vehicleNumber: "AB12", vehicleModel: "Civic", vehicleYear: "2020"}`. -/
def janeAuto : CustomerData :=
  { name := "Jane Doe", email := "jane@x.com", phone := "9999999999",
    zipCode := "12345", insuranceType := "car",
    vehicleNumber := some "AB12", vehicleModel := some "Civic",
    vehicleYear := some "2020" }

/-- The empty sessions dict. -/
def ssEmpty : Sessions := fun _ => none

/-! ## C3: the insurance-type resolver and letter case -/

/-- C3 (counterexample): the claim says the resolver is case-insensitive, so
that the token `"Car"` also resolves to `auto`; in the code the dict lookup
`insurance_type_mapping.get(t, t)` is case-sensitive and `"Car"` misses the
table and passes through unchanged. -/
theorem c3_resolver_case_counterexample : resolveType "Car" ≠ "auto" ∧ resolveType "Car" = "Car" := by
  decide

/-- C3 (amended): the resolver maps each exact alias token of the fixed table
to its canonical category, but the lookup is case-sensitive: differently
cased tokens such as `"Car"` and `"CAR"` are not aliases and pass through
unchanged. -/
theorem c3_resolver_alias_table :
    (resolveType "car" = "auto" ∧ resolveType "auto" = "auto"
      ∧ resolveType "term" = "term_life" ∧ resolveType "term_life" = "term_life"
      ∧ resolveType "health" = "health" ∧ resolveType "savings" = "savings"
      ∧ resolveType "home" = "home")
    ∧ resolveType "Car" = "Car" ∧ resolveType "CAR" = "CAR" := by
  decide

/-! ## C9: idempotence of the resolver on known aliases -/

/-- C9: for every alias token known to the type table, resolving is
idempotent: `resolve (resolve a) = resolve a`. -/
theorem c9_resolve_idempotent (a : String)
    (h : (insurance_type_mapping a).isSome = true) :
    resolveType (resolveType a) = resolveType a := by
  have halias : a = "car" ∨ a = "auto" ∨ a = "term" ∨ a = "term_life"
      ∨ a = "health" ∨ a = "savings" ∨ a = "home" := by
    by_contra hc
    push_neg at hc
    obtain ⟨n1, n2, n3, n4, n5, n6, n7⟩ := hc
    simp [insurance_type_mapping, n1, n2, n3, n4, n5, n6, n7] at h
  rcases halias with h | h | h | h | h | h | h <;> subst h <;> decide

/-- C9 (witness): the theorem applied to the alias `"car"`. -/
theorem c9_resolve_idempotent_witness :
    resolveType (resolveType "car") = resolveType "car" :=
  c9_resolve_idempotent "car" (by decide)

/-! ## C1: what status a validation failure surfaces with -/

/-- C1: every validation failure of §4.3 raises `HTTPException(400, detail)`
inside `DatabaseService.store_customer`'s `try` block, whose blanket
`except Exception as e: raise HTTPException(status_code=500, detail=str(e))`
converts it into a 500; the route's `except HTTPException: raise` then
re-raises that 500 unchanged.  So the `POST /api/database/customer`
operation answers validation failures with a 500-class error (whose detail
is the stringified 400), contradicting the spec's 400-class taxonomy. -/
theorem c1_validation_error_surfaced_as_500 (cd : CustomerData) (d : String) (dbId : Nat)
    (h : validate_customer_data cd = .error (.httpException 400 d)) :
    store_customer_endpoint (some cd) dbId
      = .error (.httpException 500 (pyExcStr (.httpException 400 d))) := by
  simp [store_customer_endpoint, store_customer, store_customer_body, h, Bind.bind, Except.bind]

/-- C1 (witness): the payload whose name is empty fails validation with
`400: Name is required`, and the endpoint surfaces it as a 500. -/
theorem c1_validation_error_surfaced_as_500_witness :
    store_customer_endpoint (some { janeAuto with name := "" }) 7
      = .error (.httpException 500 (pyExcStr (.httpException 400 "Name is required"))) :=
  c1_validation_error_surfaced_as_500 { janeAuto with name := "" } "Name is required" 7 (by rfl)

/-! ## C10: the validator's age fallback chain vs the store's -/

/-- C10: for a record of canonical type `home` whose age is supplied only in
`homeAge` (with `lifeAge`, `savingsAge` and `age` all absent), validation
fails with the age-range error — its fallback chain
`lifeAge or savingsAge or age` never consults `homeAge` — even though the
store step's own age computation (`int(homeAge or age)`) would have
persisted `homeAge` as the record's age. -/
theorem c10_home_age_validator_skips_homeAge (cd : CustomerData)
    (hb : basicsOk cd = true)
    (ht : resolveType cd.insuranceType = "home")
    (hl : cd.lifeAge = none) (hs : cd.savingsAge = none) (ha : cd.age = none) :
    validate_customer_data cd
      = .error (.httpException 400 "Valid age between 18 and 80 is required")
    ∧ ∀ h : String, cd.homeAge = some h →
        store_int_value cd.homeAge cd.age
          = (if h == "" then .ok .null else (pyInt h).map DBVal.int) := by
  simp only [basicsOk, Bool.and_eq_true, Bool.not_eq_true'] at hb
  obtain ⟨⟨⟨⟨⟨h1, h2⟩, h3⟩, h4⟩, h5⟩, h6⟩ := hb
  have h6' : ¬(cd.phone.length < 10) := of_decide_eq_false h6
  constructor
  · simp [validate_customer_data, h1, h2, h3, h4, h5, h6', ht, pyOr, pyTruthyOpt, hl, hs, ha]
  · intro h hh
    by_cases hc : h = "" <;>
      simp [store_int_value, pyOr, pyTruthyOpt, hh, ha, hc]

/-- C10 (witness): a concrete home record carrying its age only in `homeAge`
is rejected by the validator while the store step would have used it. -/
theorem c10_home_age_validator_skips_homeAge_witness :
    validate_customer_data
        { name := "Hank", email := "h@x.com", phone := "8888888888",
          zipCode := "54321", insuranceType := "home",
          homeAge := some "40", homeGender := some "male" }
      = .error (.httpException 400 "Valid age between 18 and 80 is required")
    ∧ ∀ h : String,
        ({ name := "Hank", email := "h@x.com", phone := "8888888888",
           zipCode := "54321", insuranceType := "home",
           homeAge := some "40", homeGender := some "male" } : CustomerData).homeAge = some h →
        store_int_value
            ({ name := "Hank", email := "h@x.com", phone := "8888888888",
               zipCode := "54321", insuranceType := "home",
               homeAge := some "40", homeGender := some "male" } : CustomerData).homeAge
            ({ name := "Hank", email := "h@x.com", phone := "8888888888",
               zipCode := "54321", insuranceType := "home",
               homeAge := some "40", homeGender := some "male" } : CustomerData).age
          = (if h == "" then .ok .null else (pyInt h).map DBVal.int) :=
  c10_home_age_validator_skips_homeAge _ (by decide) (by decide) rfl rfl rfl

/-! ## C6: auto-type validation rules -/

/-- C6 (counterexample): the claim says validation rejects any auto record
whose `vehicleYear` does not parse as an integer; in the code the auto
branch only checks `not customer_data.vehicleYear` (presence), so the
record with `vehicleYear = "abc"` passes validation even though `"abc"`
is not an integer literal. -/
theorem c6_auto_year_parse_counterexample :
    validate_customer_data { janeAuto with vehicleYear := some "abc" } = .ok ()
    ∧ pyToIntOpt "abc" = none
    ∧ store_customer { janeAuto with vehicleYear := some "abc" } 7
        = .error (.httpException 500 "invalid literal for int() with base 10: 'abc'") := by
  exact ⟨rfl, rfl, rfl⟩

/-- C6 (amended): for a basics-valid record of canonical type `auto`,
validation rejects a missing/blank `vehicleNumber`, then a missing/blank
`vehicleModel` (so removing `vehicleModel` yields the vehicle-model 400),
then a missing-or-empty `vehicleYear`, each with the corresponding detail;
but it performs no integer-parse check on `vehicleYear`: once the three
presence checks pass, validation succeeds whatever `vehicleYear` holds
(a non-integer year only fails later, in the store step's `int(...)`). -/
theorem c6_auto_validation (cd : CustomerData)
    (hb : basicsOk cd = true)
    (ht : resolveType cd.insuranceType = "auto") :
    (blankOpt cd.vehicleNumber = true →
      validate_customer_data cd
        = .error (.httpException 400 "Vehicle number is required for auto insurance"))
    ∧ (blankOpt cd.vehicleNumber = false → blankOpt cd.vehicleModel = true →
      validate_customer_data cd
        = .error (.httpException 400 "Vehicle model is required for auto insurance"))
    ∧ (blankOpt cd.vehicleNumber = false → blankOpt cd.vehicleModel = false →
        falsyOpt cd.vehicleYear = true →
      validate_customer_data cd
        = .error (.httpException 400 "Vehicle year is required for auto insurance"))
    ∧ (blankOpt cd.vehicleNumber = false → blankOpt cd.vehicleModel = false →
        falsyOpt cd.vehicleYear = false →
      validate_customer_data cd = .ok ()) := by
  simp only [basicsOk, Bool.and_eq_true, Bool.not_eq_true'] at hb
  obtain ⟨⟨⟨⟨⟨h1, h2⟩, h3⟩, h4⟩, h5⟩, h6⟩ := hb
  have h6' : ¬(cd.phone.length < 10) := of_decide_eq_false h6
  refine ⟨?_, ?_, ?_, ?_⟩ <;> intros <;>
    simp [validate_customer_data, h1, h2, h3, h4, h5, h6', ht, *]

/-- C6 (witness): the theorem applied to the spec's example auto record; the
vehicle-model conjunct yields `ValidationError` on the model-less record is
exercised separately, here the all-fields-present branch concludes
validation succeeds. -/
theorem c6_auto_validation_witness :
    validate_customer_data janeAuto = .ok () :=
  (c6_auto_validation janeAuto (by decide) (by decide)).2.2.2 (by decide) (by decide) (by decide)

/-! ## C2: snake-case vs camelCase payload keys -/

/-- The spec's example payload spelled with the canonical camelCase keys. -/
def payloadCamel : List (String × String) :=
  [("name", "Jane Doe"), ("email", "jane@x.com"), ("phone", "9999999999"),
   ("zipCode", "12345"), ("insuranceType", "car")]

/-- The same payload spelled with snake-case keys for the aliased fields. -/
def payloadSnake : List (String × String) :=
  [("name", "Jane Doe"), ("email", "jane@x.com"), ("phone", "9999999999"),
   ("zip_code", "12345"), ("insurance_type", "car")]

/-- C2 (counterexample): the claim says the normalizer accepts both
`zip_code` and `zipCode` (and `insurance_type`/`insuranceType`) and builds
the same canonical record from either; the `CustomerData` model declares no
aliases, so the snake-case payload is rejected for the missing `zipCode`
field while the camelCase payload parses. -/
theorem c2_snake_case_counterexample :
    parseCustomerData payloadSnake = .error "Field required: zipCode"
    ∧ parseCustomerData payloadCamel
        = .ok { name := "Jane Doe", email := "jane@x.com", phone := "9999999999",
                zipCode := "12345", insuranceType := "car" } := by
  exact ⟨rfl, rfl⟩

/-- C2 (amended): the model accepts only the declared camelCase spellings:
whenever a payload parses, every canonical field value was read from its
camelCase key (snake-case spellings such as `zip_code` and
`insurance_type` are never consulted, and a payload providing only them
fails to parse). -/
theorem c2_camel_keys_only (payload : List (String × String)) (r : CustomerData)
    (h : parseCustomerData payload = .ok r) :
    payload.lookup "zipCode" = some r.zipCode
    ∧ payload.lookup "insuranceType" = some r.insuranceType
    ∧ payload.lookup "name" = some r.name
    ∧ payload.lookup "email" = some r.email
    ∧ payload.lookup "phone" = some r.phone := by
  cases h1 : payload.lookup "name" with
  | none => simp [parseCustomerData, requireField, h1, Bind.bind, Except.bind] at h
  | some v1 =>
  cases h2 : payload.lookup "email" with
  | none => simp [parseCustomerData, requireField, h1, h2, Bind.bind, Except.bind] at h
  | some v2 =>
  cases h3 : payload.lookup "phone" with
  | none => simp [parseCustomerData, requireField, h1, h2, h3, Bind.bind, Except.bind] at h
  | some v3 =>
  cases h4 : payload.lookup "zipCode" with
  | none => simp [parseCustomerData, requireField, h1, h2, h3, h4, Bind.bind, Except.bind] at h
  | some v4 =>
  cases h5 : payload.lookup "insuranceType" with
  | none => simp [parseCustomerData, requireField, h1, h2, h3, h4, h5, Bind.bind, Except.bind] at h
  | some v5 =>
    simp [parseCustomerData, requireField, h1, h2, h3, h4, h5, Bind.bind, Except.bind] at h
    subst h
    refine ⟨?_, ?_, ?_, ?_, ?_⟩ <;> simp [h1, h2, h3, h4, h5]

/-- C2 (witness): the theorem applied to the camelCase payload. -/
theorem c2_camel_keys_only_witness :
    payloadCamel.lookup "zipCode"
        = some ({ name := "Jane Doe", email := "jane@x.com", phone := "9999999999",
                  zipCode := "12345", insuranceType := "car" } : CustomerData).zipCode
    ∧ payloadCamel.lookup "insuranceType"
        = some ({ name := "Jane Doe", email := "jane@x.com", phone := "9999999999",
                  zipCode := "12345", insuranceType := "car" } : CustomerData).insuranceType
    ∧ payloadCamel.lookup "name"
        = some ({ name := "Jane Doe", email := "jane@x.com", phone := "9999999999",
                  zipCode := "12345", insuranceType := "car" } : CustomerData).name
    ∧ payloadCamel.lookup "email"
        = some ({ name := "Jane Doe", email := "jane@x.com", phone := "9999999999",
                  zipCode := "12345", insuranceType := "car" } : CustomerData).email
    ∧ payloadCamel.lookup "phone"
        = some ({ name := "Jane Doe", email := "jane@x.com", phone := "9999999999",
                  zipCode := "12345", insuranceType := "car" } : CustomerData).phone :=
  c2_camel_keys_only payloadCamel _ rfl

/-! ## C4: does the chat-message handler merge the supplied formData? -/

/-- The Alice form data used by the chat examples. -/
def fdAlice : CustomerData := { janeAuto with name := "Alice", insuranceType := "auto" }

/-- The Bob form data the second chat call supplies. -/
def fdBob : CustomerData := { janeAuto with name := "Bob", insuranceType := "auto" }

/-- The sessions dict after initializing session `"s1"` with Alice's data. -/
def ssAliceInit : Sessions :=
  (initialize_chat ssEmpty { sessionId := "s1", formData := fdAlice }).1

/-- The string a chat-message result answers with (empty on error). -/
def respOf (e : Except PyExc (Sessions × String)) : String :=
  match e with
  | .ok p => p.2
  | .error _ => ""

/-- C4 (counterexample): the claim says the formData supplied with a
chat-message call is merged into the stored context before the responder
runs, so the reply would reflect the update; here the caller supplies
Bob's data (every field present, so a last-write-wins merge would equal
Bob's record), yet the reply is computed from Alice's stored context:
it greets Alice, not Bob. -/
theorem c4_formdata_merge_counterexample :
    respOf (handle_chat_message ssAliceInit { sessionId := "s1", message := "thanks", formData := fdBob })
      ≠ generate_simple_response "thanks" fdBob
    ∧ respOf (handle_chat_message ssAliceInit { sessionId := "s1", message := "thanks", formData := fdBob })
      = thanksResponse "Alice" := by
  exact ⟨by decide, rfl⟩

/-- C4 (amended): the chat-message handler ignores the `formData` it
receives entirely: the result is identical whatever `formData` is sent,
the stored context is left as it was at initialization, and the reply is
computed from that stored context. -/
theorem c4_formdata_ignored (ss : Sessions) (id msg : String) (fd fd' : CustomerData)
    (s : SessionData) (hs : ss id = some s) :
    handle_chat_message ss { sessionId := id, message := msg, formData := fd }
      = handle_chat_message ss { sessionId := id, message := msg, formData := fd' }
    ∧ handle_chat_message ss { sessionId := id, message := msg, formData := fd }
      = .ok (updateSessions ss id
              { s with history := s.history
                  ++ [("user", msg), ("assistant", generate_simple_response msg s.context)] },
             generate_simple_response msg s.context) := by
  constructor
  · rfl
  · simp [handle_chat_message, hs]

/-- C4 (witness): the theorem applied to the initialized Alice session with
Bob's and Alice's form data as the two supplied payloads. -/
theorem c4_formdata_ignored_witness :
    handle_chat_message ssAliceInit { sessionId := "s1", message := "thanks", formData := fdBob }
      = handle_chat_message ssAliceInit { sessionId := "s1", message := "thanks", formData := fdAlice }
    ∧ handle_chat_message ssAliceInit { sessionId := "s1", message := "thanks", formData := fdBob }
      = .ok (updateSessions ssAliceInit "s1"
              { formData := fdAlice,
                history := [] ++ [("user", "thanks"),
                  ("assistant", generate_simple_response "thanks" fdAlice)],
                context := fdAlice } ,
             generate_simple_response "thanks" fdAlice) :=
  c4_formdata_ignored ssAliceInit "s1" "thanks" fdBob fdAlice
    { formData := fdAlice, history := [], context := fdAlice } rfl

/-! ## C5: which context fields the responder depends on -/

/-- Sam's auto context with a Civic. -/
def cSamCivic : CustomerData := { janeAuto with name := "Sam", insuranceType := "auto" }

/-- Sam's auto context with a Camry: same `insuranceType` and `name`. -/
def cSamCamry : CustomerData := { cSamCivic with vehicleModel := some "Camry" }

/-- C5 (counterexample): the claim says the response is a function of
`(message, context.insuranceType, context.name)` only; the auto quote
branch also interpolates `context.vehicleModel`
(`getattr(context, 'vehicleModel', 'vehicle')`), so two contexts agreeing
on type and name but differing in vehicle model get different replies. -/
theorem c5_vehicle_model_counterexample :
    cSamCivic.insuranceType = cSamCamry.insuranceType
    ∧ cSamCivic.name = cSamCamry.name
    ∧ generate_simple_response "What is the price?" cSamCivic
        ≠ generate_simple_response "What is the price?" cSamCamry := by
  refine ⟨rfl, rfl, ?_⟩
  decide

/-- C5 (amended): the deterministic responder is a function of
`(message, context.insuranceType, context.name, context.vehicleModel)`:
two calls with equal messages whose contexts agree on those three fields
produce the same response, whatever the other context fields hold. -/
theorem c5_response_function_of (m : String) (c1 c2 : CustomerData)
    (h1 : c1.insuranceType = c2.insuranceType)
    (h2 : c1.name = c2.name)
    (h3 : c1.vehicleModel = c2.vehicleModel) :
    generate_simple_response m c1 = generate_simple_response m c2 := by
  simp only [generate_simple_response, h1, h2, h3]

/-- C5 (witness): the theorem applied to two contexts differing in phone
number (and only agreeing where required). -/
theorem c5_response_function_of_witness :
    generate_simple_response "What is the price?" cSamCivic
      = generate_simple_response "What is the price?" { cSamCivic with phone := "0000000000" } :=
  c5_response_function_of "What is the price?" cSamCivic
    { cSamCivic with phone := "0000000000" } rfl rfl rfl

/-! ## C7: history length after initialize + one appendTurn -/

/-- C7 (counterexample): the claim says history length becomes exactly 1
after one message on a fresh session; the handler appends two entries (a
`user` and an `assistant` record), so the length is 2, not 1. -/
theorem c7_history_length_counterexample :
    (match handle_chat_message
            (initialize_chat ssEmpty { sessionId := "s7", formData := fdAlice }).1
            { sessionId := "s7", message := "hello", formData := fdAlice } with
     | .ok (ss2, _) => (ss2 "s7").map (fun sd => sd.history.length)
     | .error _ => none) = some 2
    ∧ (2 : Nat) ≠ 1 := by
  exact ⟨rfl, by decide⟩

/-- C7 (amended): initialize followed immediately by one chat message with
the same session id succeeds, and the stored history then holds exactly 2
entries: a `("user", message)` record followed by an
`("assistant", response)` record (the code stores role/content pairs, not
`{message, response, timestamp}` triples). -/
theorem c7_append_turn_after_init (ss : Sessions) (req : ChatInitRequest)
    (msg : String) (fd : CustomerData) :
    handle_chat_message (initialize_chat ss req).1
        { sessionId := req.sessionId, message := msg, formData := fd }
      = .ok (updateSessions (initialize_chat ss req).1 req.sessionId
              { formData := req.formData,
                history := [("user", msg),
                  ("assistant", generate_simple_response msg req.formData)],
                context := req.formData },
             generate_simple_response msg req.formData)
    ∧ ((updateSessions (initialize_chat ss req).1 req.sessionId
          { formData := req.formData,
            history := [("user", msg),
              ("assistant", generate_simple_response msg req.formData)],
            context := req.formData }) req.sessionId).map (fun sd => sd.history.length)
        = some 2 := by
  constructor
  · simp [initialize_chat, handle_chat_message, updateSessions]
  · simp [updateSessions]

/-! ## C8: the health/30/female catalog query -/

/-- The row predicate the health/age-30/female query filters by. -/
def healthQuery30Female (p : Product) : Bool :=
  (p.product_type == "health" && p.is_active)
    && (decide (p.min_age ≤ 30) && decide ((30 : Int) ≤ p.max_age))
    && (p.target_gender == "female" || p.target_gender == "all")

lemma get_products_health30female_eq (catalog : List Product) :
    get_insurance_products catalog "health" (some 30) (some "female")
      = (catalog.filter healthQuery30Female).mergeSort premiumLE := rfl

lemma premiumLE_trans (a b c : Product) :
    premiumLE a b → premiumLE b c → premiumLE a c := by
  simp only [premiumLE, decide_eq_true_eq]
  omega

lemma premiumLE_total (a b : Product) : premiumLE a b || premiumLE b a := by
  simp only [premiumLE, Bool.or_eq_true, decide_eq_true_eq]
  omega

/-- C8: the health/age-30/female query returns exactly (as a permutation,
preserving multiplicity) the active catalog rows with product type
`health`, `min_age ≤ 30 ≤ max_age` and target gender `female` or `all`;
the result is ordered ascending by `premium_amount`; and rows of equal
premium appear in catalog insertion order (for every premium value, the
result restricted to that premium equals the filtered catalog restricted
to it). -/
theorem c8_health_query_characterization (catalog : List Product) :
    ((get_insurance_products catalog "health" (some 30) (some "female")).Perm
        (catalog.filter healthQuery30Female))
    ∧ (∀ p : Product,
        p ∈ get_insurance_products catalog "health" (some 30) (some "female")
          ↔ p ∈ catalog ∧ p.product_type = "health" ∧ p.is_active = true
            ∧ p.min_age ≤ 30 ∧ (30 : Int) ≤ p.max_age
            ∧ (p.target_gender = "female" ∨ p.target_gender = "all"))
    ∧ (get_insurance_products catalog "health" (some 30) (some "female")).Pairwise
        (fun a b => a.premium_amount ≤ b.premium_amount)
    ∧ (∀ v : Int,
        (get_insurance_products catalog "health" (some 30) (some "female")).filter
            (fun p => p.premium_amount == v)
          = (catalog.filter healthQuery30Female).filter (fun p => p.premium_amount == v)) := by
  rw [get_products_health30female_eq]
  refine ⟨List.mergeSort_perm _ _, ?_, ?_, ?_⟩
  · intro p
    rw [List.mem_mergeSort, List.mem_filter]
    simp [healthQuery30Female]
    tauto
  · exact (List.sorted_mergeSort premiumLE_trans premiumLE_total _).imp
      (fun h => by simpa [premiumLE] using h)
  · intro v
    set l := catalog.filter healthQuery30Female with hl
    set pv : Product → Bool := fun p => p.premium_amount == v with hpv
    have hmem : ∀ x ∈ l.filter pv, x.premium_amount = v := by
      intro x hx
      have := (List.mem_filter.mp hx).2
      simpa [hpv] using this
    have hpw : (l.filter pv).Pairwise (fun a b => premiumLE a b) := by
      apply List.pairwise_of_forall_mem_list
      intro a ha b hb
      simp only [premiumLE, decide_eq_true_eq]
      rw [hmem a ha, hmem b hb]
    have hsub : List.Sublist (l.filter pv) l := List.filter_sublist l
    have h1 : List.Sublist (l.filter pv) (l.mergeSort premiumLE) :=
      List.sublist_mergeSort premiumLE_trans premiumLE_total hpw hsub
    have h2 : (l.filter pv).filter pv = l.filter pv := by
      apply List.filter_eq_self.mpr
      intro a ha
      exact (List.mem_filter.mp ha).2
    have h3 : List.Sublist (l.filter pv) ((l.mergeSort premiumLE).filter pv) := by
      have := h1.filter pv
      rwa [h2] at this
    have h4 : List.Perm ((l.mergeSort premiumLE).filter pv) (l.filter pv) :=
      (List.mergeSort_perm l premiumLE).filter pv
    exact (h3.eq_of_length h4.length_eq.symm).symm
